import Mathlib

/-!
Shallow embedding of the Carryon backend core (booking lifecycle, wallet
ledger, promo/referral engine, rating aggregation) from the Express route
handlers in `src/src/routes/`.  Each route handler becomes a pure function
from a database `State` and its request arguments to a response
(`Except String α`, the error message string being the one the handler
sends) paired with the post-request `State`.  All guards in the handlers
precede every write, so an error response always returns the state
unchanged; the embedding makes that explicit by pairing the response with
the resulting state.  Monetary JS numbers are modelled as rationals;
timestamps are elided except for coupon expiry, which is passed an explicit
clock value `now`.
-/

namespace Carryon

deriving instance DecidableEq for Except

/-- JS `Math.round`: round half toward positive infinity. -/
def jsRound (x : ℚ) : ℤ := ⌊x + 1/2⌋

/-- JS `Math.round(x * 100) / 100`: round to 2 decimal places, half up. -/
def round2 (x : ℚ) : ℚ := (jsRound (x * 100) : ℚ) / 100

/-- JS `Math.round(x * 10) / 10`: round to 1 decimal place, half up. -/
def round1 (x : ℚ) : ℚ := (jsRound (x * 10) : ℚ) / 10

/-- Look up a row by primary key in a keyed table (first match). -/
def lookupK {α : Type} (l : List (String × α)) (k : String) : Option α :=
  (l.find? (fun p => p.1 == k)).map Prod.snd

/-- Prisma `update where id`: rewrite the row(s) stored under key `k`. -/
def updateK {α : Type} (l : List (String × α)) (k : String) (f : α → α) :
    List (String × α) :=
  l.map (fun p => if p.1 == k then (p.1, f p.2) else p)

/-- Booking status enum (`BookingStatus` in the Prisma schema). -/
inductive BookingStatus
  | PENDING | SEARCHING_DRIVER | DRIVER_ASSIGNED | DRIVER_ARRIVED
  | PICKUP_DONE | IN_TRANSIT | DELIVERED | CANCELLED
deriving DecidableEq, Repr

/-- The `validStatuses` list of `PUT /bookings/:id/status`, as a parser from
the request string to the status enum (`none` = unrecognized). -/
def parseStatus : String → Option BookingStatus
  | "PENDING" => some .PENDING
  | "SEARCHING_DRIVER" => some .SEARCHING_DRIVER
  | "DRIVER_ASSIGNED" => some .DRIVER_ASSIGNED
  | "DRIVER_ARRIVED" => some .DRIVER_ARRIVED
  | "PICKUP_DONE" => some .PICKUP_DONE
  | "IN_TRANSIT" => some .IN_TRANSIT
  | "DELIVERED" => some .DELIVERED
  | "CANCELLED" => some .CANCELLED
  | _ => none

/-- Lower-case rendering used in the cancel error message. -/
def statusLower : BookingStatus → String
  | .PENDING => "pending"
  | .SEARCHING_DRIVER => "searching_driver"
  | .DRIVER_ASSIGNED => "driver_assigned"
  | .DRIVER_ARRIVED => "driver_arrived"
  | .PICKUP_DONE => "pickup_done"
  | .IN_TRANSIT => "in_transit"
  | .DELIVERED => "delivered"
  | .CANCELLED => "cancelled"

inductive PaymentMethod | CASH | WALLET | CARD
deriving DecidableEq, Repr

inductive PaymentStatus | PENDING | COMPLETED | REFUNDED
deriving DecidableEq, Repr

/-- `WalletTransaction.type` enum. -/
inductive TxnType | TOP_UP | PAYMENT | REFUND | REFERRAL_BONUS
deriving DecidableEq, Repr

/-- A `WalletTransaction` row (immutable ledger entry). -/
structure WalletTransaction where
  type : TxnType
  amount : ℚ
  referenceId : Option String
deriving DecidableEq, Repr

/-- A `Wallet` row together with its transaction rows (newest first, as the
handlers insert them). -/
structure Wallet where
  balance : ℚ
  transactions : List WalletTransaction
deriving DecidableEq, Repr

/-- A `Booking` row (fields the core routes read or write; timestamps
elided). `finalPrice` is non-nullable with default 0 in the schema. -/
structure Booking where
  userId : String
  estimatedPrice : ℚ
  discountAmount : ℚ
  finalPrice : ℚ
  status : BookingStatus
  paymentMethod : PaymentMethod
  paymentStatus : PaymentStatus
  otp : String
  driverId : Option String
  promoCode : Option String
  eta : Option ℤ
  deliveryProofUrl : Option String
deriving DecidableEq, Repr

inductive DiscountType | PERCENTAGE | FLAT
deriving DecidableEq, Repr

/-- A `Coupon` row. `expiresAt` is an optional epoch instant compared
against an explicit `now`. -/
structure Coupon where
  code : String
  discountType : DiscountType
  discountValue : ℚ
  maxDiscount : Option ℚ
  minOrderValue : ℚ
  usageLimit : Nat
  usedCount : Nat
  isActive : Bool
  expiresAt : Option ℚ
deriving DecidableEq, Repr

/-- A `UserCoupon` row; `usedAt` models whether the timestamp is non-null. -/
structure UserCoupon where
  userId : String
  couponId : String
  bookingId : Option String
  usedAt : Bool
deriving DecidableEq, Repr

/-- A `Referral` row. -/
structure Referral where
  referrerId : String
  refereeId : String
  referralCode : String
  rewardAmount : ℚ
deriving DecidableEq, Repr

/-- A `Driver` row (fields the core routes touch). -/
structure Driver where
  rating : ℚ
  totalTrips : Nat
deriving DecidableEq, Repr

/-- An `Order` row, keyed 1-1 by booking id. -/
structure Order where
  rating : Option ℚ
  tipAmount : ℚ
deriving DecidableEq, Repr

/-- The database state the core routes read and write.  Keyed tables are
association lists (`wallets` keyed by owner `userId` — the handlers only ever
address a wallet through its owner; `users` maps user id to referral code). -/
structure State where
  wallets : List (String × Wallet)
  bookings : List (String × Booking)
  coupons : List (String × Coupon)
  userCoupons : List UserCoupon
  referrals : List Referral
  users : List (String × String)
  drivers : List (String × Driver)
  orders : List (String × Order)
deriving DecidableEq, Repr

/-- Net effect of `wallet.upsert` (+amount or create-with-amount) followed by
`walletTransaction.create`, the pattern of the top-up and referral handlers. -/
def creditWallet (l : List (String × Wallet)) (userId : String) (amount : ℚ)
    (t : TxnType) (ref : Option String) : List (String × Wallet) :=
  match lookupK l userId with
  | some _ => updateK l userId (fun w =>
      { balance := w.balance + amount
        transactions := ⟨t, amount, ref⟩ :: w.transactions })
  | none => (userId, ⟨amount, [⟨t, amount, ref⟩]⟩) :: l

/-- `POST /wallet/topup` (wallet.routes.js 36-63).  Returns the new balance. -/
def walletTopup (s : State) (userId : String) (amount : ℚ)
    (paymentReference : Option String) : Except String ℚ × State :=
  if amount ≤ 0 then (.error "Invalid amount", s)
  else if 1000 < amount then (.error "Maximum top-up is RM 1000", s)
  else
    let wallets := creditWallet s.wallets userId amount .TOP_UP paymentReference
    ((match lookupK wallets userId with
      | some w => .ok w.balance
      | none => .error "Wallet not found"), { s with wallets := wallets })

/-- `POST /wallet/pay` (wallet.routes.js 66-108).  Returns
`(balance, amountPaid)`. -/
def walletPay (s : State) (userId bookingId : String) :
    Except String (ℚ × ℚ) × State :=
  if bookingId = "" then (.error "Booking ID is required", s)
  else
    match lookupK s.bookings bookingId with
    | none => (.error "Booking not found", s)
    | some b =>
      if b.userId ≠ userId then (.error "Booking not found", s)
      else
        let amount := b.estimatedPrice - b.discountAmount
        match lookupK s.wallets userId with
        | none => (.error "Insufficient wallet balance", s)
        | some w =>
          if w.balance < amount then (.error "Insufficient wallet balance", s)
          else
            let wallets := updateK s.wallets userId (fun w =>
              { balance := w.balance - amount
                transactions :=
                  ⟨.PAYMENT, -amount, some bookingId⟩ :: w.transactions })
            let bookings := updateK s.bookings bookingId (fun b =>
              { b with paymentMethod := .WALLET, paymentStatus := .COMPLETED
                       finalPrice := amount })
            (.ok (w.balance - amount, amount),
             { s with wallets := wallets, bookings := bookings })

/-- `POST /bookings/:id/cancel` (booking.routes.js 277-328).  The status is
set to CANCELLED first; the refund runs only when the booking was wallet-paid
and COMPLETED and the requester has a wallet (`if (wallet)` in the source). -/
def cancelBooking (s : State) (userId bookingId : String) :
    Except String Unit × State :=
  match lookupK s.bookings bookingId with
  | none => (.error "Booking not found", s)
  | some b =>
    if b.userId ≠ userId then (.error "Not authorized", s)
    else if b.status = .DELIVERED ∨ b.status = .CANCELLED then
      (.error ("Cannot cancel a " ++ statusLower b.status ++ " booking"), s)
    else
      let cancelled :=
        updateK s.bookings bookingId (fun b => { b with status := .CANCELLED })
      let s1 := { s with bookings := cancelled }
      if b.paymentMethod = .WALLET ∧ b.paymentStatus = .COMPLETED then
        let amount := if b.finalPrice = 0 then b.estimatedPrice else b.finalPrice
        match lookupK s1.wallets userId with
        | none => (.ok (), s1)
        | some _ =>
          let wallets := updateK s1.wallets userId (fun w =>
            { balance := w.balance + amount
              transactions :=
                ⟨.REFUND, amount, some bookingId⟩ :: w.transactions })
          let bookings := updateK s1.bookings bookingId (fun b =>
            { b with paymentStatus := .REFUNDED })
          (.ok (), { s1 with wallets := wallets, bookings := bookings })
      else (.ok (), s1)

/-- `POST /bookings/:id/verify-delivery` (booking.routes.js 122-174). -/
def verifyDelivery (s : State) (userId bookingId otp : String)
    (deliveryProofUrl : Option String) : Except String Unit × State :=
  if otp = "" then (.error "OTP is required", s)
  else
    match lookupK s.bookings bookingId with
    | none => (.error "Booking not found", s)
    | some b =>
      if b.userId ≠ userId then (.error "Not authorized", s)
      else if b.status = .DELIVERED then (.error "Booking already delivered", s)
      else if b.status = .CANCELLED then (.error "Booking is cancelled", s)
      else if b.otp ≠ otp then (.error "Invalid delivery OTP", s)
      else
        let bookings := updateK s.bookings bookingId (fun b =>
          { b with status := .DELIVERED
                   deliveryProofUrl := deliveryProofUrl
                   paymentStatus :=
                     if b.paymentMethod = .CASH then .COMPLETED
                     else b.paymentStatus })
        let orders :=
          match lookupK s.orders bookingId with
          | some _ => s.orders
          | none => (bookingId, (⟨none, 0⟩ : Order)) :: s.orders
        let drivers :=
          match b.driverId with
          | some d => updateK s.drivers d (fun dr =>
              { dr with totalTrips := dr.totalTrips + 1 })
          | none => s.drivers
        (.ok (), { s with bookings := bookings, orders := orders,
                          drivers := drivers })

/-- `PUT /bookings/:id/status` (booking.routes.js 179-215).  There is no
check of the current status: any recognized status is written. -/
def updateStatus (s : State) (userId bookingId status : String)
    (eta : Option ℤ) : Except String Unit × State :=
  if status = "" then (.error "Status is required", s)
  else
    match parseStatus status with
    | none => (.error "Invalid status", s)
    | some st =>
      match lookupK s.bookings bookingId with
      | none => (.error "Booking not found", s)
      | some b =>
        if b.userId ≠ userId then (.error "Not authorized", s)
        else
          let bookings := updateK s.bookings bookingId (fun b =>
            { b with status := st
                     eta := match eta with | some e => some e | none => b.eta
                     paymentStatus :=
                       if st = .CANCELLED then .REFUNDED
                       else b.paymentStatus })
          (.ok (), { s with bookings := bookings })

/-- Discount computation shared by validate and apply (promo.routes.js 36-44
and 76-82), before rounding.  The clamp condition is the JS truthiness test
`coupon.maxDiscount && discount > coupon.maxDiscount`: a null or zero
`maxDiscount` skips the clamp. -/
def calcDiscount (c : Coupon) (amount : ℚ) : ℚ :=
  match c.discountType with
  | .PERCENTAGE =>
    let d := amount * c.discountValue / 100
    match c.maxDiscount with
    | some m => if m ≠ 0 ∧ m < d then m else d
    | none => d
  | .FLAT => c.discountValue

/-- JS `code.toUpperCase()` (ASCII), written over the character list so that
it evaluates by kernel reduction. -/
def jsToUpper (str : String) : String := ⟨str.data.map Char.toUpper⟩

/-- `prisma.coupon.findUnique({ where: { code: code.toUpperCase() } })`. -/
def findCouponByCode (s : State) (code : String) : Option (String × Coupon) :=
  s.coupons.find? (fun p => p.2.code == jsToUpper code)

/-- `coupon.expiresAt && new Date(coupon.expiresAt) < new Date()`. -/
def couponExpired (c : Coupon) (now : ℚ) : Bool :=
  match c.expiresAt with
  | some e => e < now
  | none => false

/-- `POST /promo/validate` (promo.routes.js 10-60).  Pure read; an absent
`orderAmount` is JS-falsy, modelled as 0 (the handler uses
`orderAmount && ...` and `orderAmount || 0`).  Returns `calculatedDiscount`. -/
def validatePromo (s : State) (userId code : String) (orderAmount : ℚ)
    (now : ℚ) : Except String ℚ × State :=
  if code = "" then (.error "Promo code is required", s)
  else
    match findCouponByCode s code with
    | none => (.error "Invalid promo code", s)
    | some (cid, c) =>
      if c.isActive = false then
        (.error "This promo code is no longer active", s)
      else if couponExpired c now then
        (.error "This promo code has expired", s)
      else if c.usageLimit ≤ c.usedCount then
        (.error "This promo code has reached its usage limit", s)
      else if orderAmount ≠ 0 ∧ orderAmount < c.minOrderValue then
        (.error "Minimum order value not met", s)
      else
        match s.userCoupons.find?
            (fun uc => uc.userId == userId && uc.couponId == cid) with
        | some uc =>
          if uc.usedAt then
            (.error "You have already used this promo code", s)
          else (.ok (round2 (calcDiscount c orderAmount)), s)
        | none => (.ok (round2 (calcDiscount c orderAmount)), s)

/-- `POST /promo/apply` (promo.routes.js 63-105).  Re-checks only existence
and the active flag, then mutates booking, coupon counter and UserCoupon in
one transaction.  Returns `(discount, finalPrice)`. -/
def applyPromo (s : State) (userId code bookingId : String) :
    Except String (ℚ × ℚ) × State :=
  if code = "" ∨ bookingId = "" then
    (.error "Code and bookingId are required", s)
  else
    match lookupK s.bookings bookingId with
    | none => (.error "Booking not found", s)
    | some b =>
      if b.userId ≠ userId then (.error "Booking not found", s)
      else
        match findCouponByCode s code with
        | none => (.error "Invalid promo code", s)
        | some (cid, c) =>
          if c.isActive = false then (.error "Invalid promo code", s)
          else
            let discount := round2 (calcDiscount c b.estimatedPrice)
            let bookings := updateK s.bookings bookingId (fun b =>
              { b with promoCode := some c.code, discountAmount := discount })
            let coupons := updateK s.coupons cid (fun c =>
              { c with usedCount := c.usedCount + 1 })
            let userCoupons :=
              match s.userCoupons.find?
                  (fun uc => uc.userId == userId && uc.couponId == cid) with
              | some _ => s.userCoupons.map (fun uc =>
                  if uc.userId == userId && uc.couponId == cid then
                    { uc with bookingId := some bookingId, usedAt := true }
                  else uc)
              | none => ⟨userId, cid, some bookingId, true⟩ :: s.userCoupons
            (.ok (discount, b.estimatedPrice - discount),
             { s with bookings := bookings, coupons := coupons,
                      userCoupons := userCoupons })

/-- `POST /promo/referral/apply` (promo.routes.js 174-227).  Credits RM 5 to
the referrer first, then the referee, each credit an upsert plus one
REFERRAL_BONUS transaction. -/
def applyReferral (s : State) (userId referralCode : String) :
    Except String Unit × State :=
  if referralCode = "" then (.error "Referral code is required", s)
  else
    match s.users.find? (fun p => p.2 == referralCode) with
    | none => (.error "Invalid referral code", s)
    | some (referrerId, _) =>
      if referrerId = userId then
        (.error "You cannot use your own referral code", s)
      else
        match s.referrals.find? (fun r => r.refereeId == userId) with
        | some _ => (.error "You have already used a referral code", s)
        | none =>
          let rewardAmount : ℚ := 5
          let referrals :=
            (⟨referrerId, userId, referralCode, rewardAmount⟩ : Referral)
              :: s.referrals
          let wallets :=
            creditWallet
              (creditWallet s.wallets referrerId rewardAmount
                .REFERRAL_BONUS none)
              userId rewardAmount .REFERRAL_BONUS none
          (.ok (), { s with referrals := referrals, wallets := wallets })

/-- The rating join of `POST /ratings/:bookingId` (rating.routes.js 47-53):
all non-null ratings over orders whose booking is assigned to driver `d`. -/
def ratingsForDriver (s : State) (d : String) : List ℚ :=
  s.orders.filterMap (fun p =>
    match lookupK s.bookings p.1 with
    | some b => if b.driverId = some d then p.2.rating else none
    | none => none)

/-- `POST /ratings/:bookingId` (rating.routes.js 10-91).  Upserts the order,
recomputes the assigned driver's average rating, then best-effort debits the
tip from the requester's wallet. -/
def submitRating (s : State) (userId bookingId : String) (rating : ℚ)
    (tipAmount : ℚ) : Except String Unit × State :=
  if rating < 1 ∨ 5 < rating then
    (.error "Rating must be between 1 and 5", s)
  else
    match lookupK s.bookings bookingId with
    | none => (.error "Booking not found", s)
    | some b =>
      if b.userId ≠ userId then (.error "Not authorized", s)
      else if b.status ≠ .DELIVERED then
        (.error "Can only rate delivered bookings", s)
      else
        let orders :=
          match lookupK s.orders bookingId with
          | some _ => updateK s.orders bookingId
              (fun _ => (⟨some rating, tipAmount⟩ : Order))
          | none => (bookingId, (⟨some rating, tipAmount⟩ : Order)) :: s.orders
        let s1 := { s with orders := orders }
        match b.driverId with
        | none => (.ok (), s1)
        | some d =>
          let rs := ratingsForDriver s1 d
          let avg := rs.sum / (rs.length : ℚ)
          let drivers :=
            updateK s1.drivers d (fun dr => { dr with rating := round1 avg })
          let s2 := { s1 with drivers := drivers }
          if 0 < tipAmount then
            match lookupK s2.wallets userId with
            | none => (.ok (), s2)
            | some w =>
              if w.balance < tipAmount then (.ok (), s2)
              else
                let wallets := updateK s2.wallets userId (fun w =>
                  { balance := w.balance - tipAmount
                    transactions :=
                      ⟨.PAYMENT, -tipAmount, some bookingId⟩
                        :: w.transactions })
                (.ok (), { s2 with wallets := wallets })
          else (.ok (), s2)

/-- A single wallet satisfies the ledger invariant: its balance equals the
sum of the amounts of its transaction records. -/
def WalletOk (w : Wallet) : Prop :=
  w.balance = (w.transactions.map WalletTransaction.amount).sum

/-- Every wallet in the state satisfies the ledger invariant. -/
def WalletInvariant (s : State) : Prop :=
  ∀ p ∈ s.wallets, WalletOk p.2

/-- One request of any of the wallet-mutating operations: top-up, wallet
payment, cancellation refund, referral credit, or rating with tip debit.
The post-state is taken whether the request succeeds or fails (a failing
request leaves the state unchanged). -/
inductive WalletStep : State → State → Prop where
  | topup (s : State) (u : String) (a : ℚ) (r : Option String) :
      WalletStep s (walletTopup s u a r).2
  | pay (s : State) (u b : String) : WalletStep s (walletPay s u b).2
  | cancel (s : State) (u b : String) : WalletStep s (cancelBooking s u b).2
  | referral (s : State) (u c : String) :
      WalletStep s (applyReferral s u c).2
  | rate (s : State) (u b : String) (r t : ℚ) :
      WalletStep s (submitRating s u b r t).2

/-- The empty initial database. -/
def emptyState : State := ⟨[], [], [], [], [], [], [], []⟩

/-- A PENDING cash booking "b1" owned by "u1" with estimated price 100. -/
def bkPending : Booking :=
  { userId := "u1", estimatedPrice := 100, discountAmount := 0, finalPrice := 0
    status := .PENDING, paymentMethod := .CASH, paymentStatus := .PENDING
    otp := "1234", driverId := none, promoCode := none, eta := none
    deliveryProofUrl := none }

/-- An active PERCENTAGE-10 coupon "SAVE10" already at its usage limit
(usedCount = usageLimit = 1). -/
def couponAtLimit : Coupon :=
  { code := "SAVE10", discountType := .PERCENTAGE, discountValue := 10
    maxDiscount := none, minOrderValue := 0, usageLimit := 1, usedCount := 1
    isActive := true, expiresAt := none }

/-- State for C2: a booking plus a coupon whose limit is exhausted. -/
def couponAtLimitState : State :=
  { emptyState with bookings := [("b1", bkPending)]
                    coupons := [("c1", couponAtLimit)] }

/-- An active PERCENTAGE-10 coupon "SAVE10" that expired at instant 0. -/
def couponExpiredEx : Coupon :=
  { code := "SAVE10", discountType := .PERCENTAGE, discountValue := 10
    maxDiscount := none, minOrderValue := 0, usageLimit := 100, usedCount := 0
    isActive := true, expiresAt := some 0 }

/-- State for C3: a booking plus an expired (but active) coupon. -/
def expiredCouponState : State :=
  { emptyState with bookings := [("b1", bkPending)]
                    coupons := [("c1", couponExpiredEx)] }

/-- A wallet-paid, payment-COMPLETED booking of 30 (finalPrice already 30). -/
def bkPaid : Booking :=
  { userId := "u1", estimatedPrice := 30, discountAmount := 0, finalPrice := 30
    status := .IN_TRANSIT, paymentMethod := .WALLET
    paymentStatus := .COMPLETED, otp := "1234", driverId := none
    promoCode := none, eta := none, deliveryProofUrl := none }

/-- A wallet holding 100 from one top-up. -/
def wRich : Wallet := ⟨100, [⟨.TOP_UP, 100, none⟩]⟩

/-- State for C4: an already-paid booking and a funded wallet. -/
def paidBookingState : State :=
  { emptyState with bookings := [("b1", bkPaid)]
                    wallets := [("u1", wRich)] }

/-- A DELIVERED booking. -/
def bkDelivered : Booking := { bkPending with status := .DELIVERED }

/-- State for C5: a booking already in the terminal DELIVERED state. -/
def deliveredBookingState : State :=
  { emptyState with bookings := [("b1", bkDelivered)] }

/-- State for C6: a PENDING cash booking awaiting OTP verification. -/
def pendingBookingState : State :=
  { emptyState with bookings := [("b1", bkPending)] }

/-- A wallet-paid COMPLETED booking: estimate 100, final price 90. -/
def bkWalletPaid : Booking :=
  { userId := "u1", estimatedPrice := 100, discountAmount := 0
    finalPrice := 90, status := .IN_TRANSIT, paymentMethod := .WALLET
    paymentStatus := .COMPLETED, otp := "1234", driverId := none
    promoCode := none, eta := none, deliveryProofUrl := none }

/-- A wallet holding 5 from one top-up. -/
def wSmall : Wallet := ⟨5, [⟨.TOP_UP, 5, none⟩]⟩

/-- State for C7: a wallet-paid booking whose owner has a wallet. -/
def walletPaidState : State :=
  { emptyState with bookings := [("b1", bkWalletPaid)]
                    wallets := [("u1", wSmall)] }

/-- State for C10: a wallet-paid booking whose owner has no wallet row. -/
def noWalletState : State :=
  { emptyState with bookings := [("b1", bkWalletPaid)] }

/-- The spec example coupon: "SAVE10", PERCENTAGE 10, no cap. -/
def saveTenCoupon : Coupon :=
  { code := "SAVE10", discountType := .PERCENTAGE, discountValue := 10
    maxDiscount := none, minOrderValue := 0, usageLimit := 100, usedCount := 0
    isActive := true, expiresAt := none }

/-- State for the C8 example: estimatedPrice-100 booking plus "SAVE10". -/
def promoExampleState : State :=
  { emptyState with bookings := [("b1", bkPending)]
                    coupons := [("c1", saveTenCoupon)] }

/-- A percentage coupon whose maxDiscount is set to the (JS-falsy) value 0. -/
def cap0Coupon : Coupon :=
  { code := "CAP0", discountType := .PERCENTAGE, discountValue := 10
    maxDiscount := some 0, minOrderValue := 0, usageLimit := 100
    usedCount := 0, isActive := true, expiresAt := none }

/-- State for the C8 counterexample: a coupon with maxDiscount = 0. -/
def zeroCapState : State := { emptyState with coupons := [("c1", cap0Coupon)] }

/-- A DELIVERED booking of "u1" assigned to driver "d1". -/
def bkDriver : Booking :=
  { bkPending with status := .DELIVERED, driverId := some "d1" }

/-- State for C9: driver "d1" with two rated delivered bookings (4 and 5)
and a third delivered booking "b3" not yet rated. -/
def ratedDriverState : State :=
  { emptyState with
      bookings := [("b1", bkDriver), ("b2", bkDriver), ("b3", bkDriver)]
      drivers := [("d1", ⟨0, 0⟩)]
      orders := [("b1", ⟨some 4, 0⟩), ("b2", ⟨some 5, 0⟩)] }

/-- The discount rule as the (amended) spec states it: PERCENTAGE means
orderAmount * value / 100, clamped to maxDiscount when that cap is set and
nonzero; FLAT means the value verbatim; the result is rounded half-up to
2 decimal places. -/
def specDiscount (dt : DiscountType) (value : ℚ) (maxD : Option ℚ)
    (orderAmount : ℚ) : ℚ :=
  round2 (match dt with
    | .PERCENTAGE =>
      let raw := orderAmount * value / 100
      match maxD with
      | some m => if m ≠ 0 ∧ m < raw then m else raw
      | none => raw
    | .FLAT => value)

theorem walletOk_credit (w : Wallet) (t : TxnType) (a : ℚ)
    (r : Option String) (h : WalletOk w) :
    WalletOk ⟨w.balance + a, ⟨t, a, r⟩ :: w.transactions⟩ := by
  simp only [WalletOk, List.map_cons, List.sum_cons] at h ⊢
  rw [h, add_comm]

theorem walletOk_debit (w : Wallet) (t : TxnType) (a : ℚ)
    (r : Option String) (h : WalletOk w) :
    WalletOk ⟨w.balance - a, ⟨t, -a, r⟩ :: w.transactions⟩ := by
  simp only [WalletOk, List.map_cons, List.sum_cons] at h ⊢
  rw [h]; ring

theorem updateK_forall {α : Type} (P : α → Prop) (l : List (String × α))
    (k : String) (f : α → α) (hl : ∀ p ∈ l, P p.2)
    (hf : ∀ a, P a → P (f a)) : ∀ p ∈ updateK l k f, P p.2 := by
  intro p hp
  simp only [updateK, List.mem_map] at hp
  obtain ⟨q, hq, rfl⟩ := hp
  by_cases hc : (q.1 == k) = true
  · simp only [hc, if_true]
    exact hf _ (hl q hq)
  · simp only [hc, if_false]
    exact hl q hq

theorem creditWallet_walletOk (l : List (String × Wallet)) (u : String)
    (a : ℚ) (t : TxnType) (r : Option String)
    (hl : ∀ p ∈ l, WalletOk p.2) :
    ∀ p ∈ creditWallet l u a t r, WalletOk p.2 := by
  unfold creditWallet
  split
  · exact updateK_forall _ _ _ _ hl (fun w hw => walletOk_credit w t a r hw)
  · intro p hp
    rcases List.mem_cons.mp hp with h | h
    · subst h; simp [WalletOk]
    · exact hl p h

theorem walletTopup_preserves (s : State) (u : String) (a : ℚ)
    (r : Option String) (h : WalletInvariant s) :
    WalletInvariant (walletTopup s u a r).2 := by
  unfold walletTopup
  dsimp only
  repeat' split
  all_goals try exact h
  all_goals exact creditWallet_walletOk _ _ _ _ _ h

theorem walletPay_preserves (s : State) (u b : String)
    (h : WalletInvariant s) : WalletInvariant (walletPay s u b).2 := by
  unfold walletPay
  dsimp only
  repeat' split
  all_goals try exact h
  all_goals
    exact updateK_forall _ _ _ _ h (fun w hw => walletOk_debit w .PAYMENT _ _ hw)

theorem cancelBooking_preserves (s : State) (u b : String)
    (h : WalletInvariant s) : WalletInvariant (cancelBooking s u b).2 := by
  unfold cancelBooking
  dsimp only
  repeat' split
  all_goals try exact h
  all_goals
    exact updateK_forall _ _ _ _ h (fun w hw => walletOk_credit w .REFUND _ _ hw)

theorem applyReferral_preserves (s : State) (u c : String)
    (h : WalletInvariant s) : WalletInvariant (applyReferral s u c).2 := by
  unfold applyReferral
  dsimp only
  repeat' split
  all_goals try exact h
  all_goals
    exact creditWallet_walletOk _ _ _ _ _ (creditWallet_walletOk _ _ _ _ _ h)

theorem submitRating_preserves (s : State) (u b : String) (r t : ℚ)
    (h : WalletInvariant s) : WalletInvariant (submitRating s u b r t).2 := by
  unfold submitRating
  dsimp only
  repeat' split
  all_goals try exact h
  all_goals
    exact updateK_forall _ _ _ _ h (fun w hw => walletOk_debit w .PAYMENT _ _ hw)

theorem walletStep_preserves (s s' : State) (h : WalletStep s s')
    (hw : WalletInvariant s) : WalletInvariant s' := by
  cases h with
  | topup u a r => exact walletTopup_preserves s u a r hw
  | pay u b => exact walletPay_preserves s u b hw
  | cancel u b => exact cancelBooking_preserves s u b hw
  | referral u c => exact applyReferral_preserves s u c hw
  | rate u b r t => exact submitRating_preserves s u b r t hw

/-- C1: for every wallet state reachable by the wallet-mutating operations
(top-up, wallet payment, cancellation refund, referral credit, tip debit)
from a state with no wallets yet, every wallet's balance equals the sum of
the amounts of its WalletTransaction records. -/
theorem C1_wallet_balance_eq_txn_sum (s₀ s : State) (h₀ : s₀.wallets = [])
    (h : Relation.ReflTransGen WalletStep s₀ s) : WalletInvariant s := by
  induction h with
  | refl => intro p hp; rw [h₀] at hp; cases hp
  | tail _ hstep ih => exact walletStep_preserves _ _ hstep ih

/-- Witness for C1: a concrete run (one top-up of 10 into an empty store)
reaches a state satisfying the ledger invariant. -/
theorem C1_witness :
    WalletInvariant (walletTopup emptyState "u1" 10 none).2 :=
  C1_wallet_balance_eq_txn_sum emptyState _ rfl
    (Relation.ReflTransGen.single (WalletStep.topup emptyState "u1" 10 none))

theorem lookupK_cons {α : Type} (q : String × α) (l : List (String × α))
    (k : String) :
    lookupK (q :: l) k = if q.1 == k then some q.2 else lookupK l k := by
  by_cases hc : (q.1 == k) = true
  · simp [lookupK, List.find?_cons_of_pos, hc]
  · have hc2 : (q.1 == k) = false := by simpa using hc
    simp [lookupK, List.find?_cons_of_neg, hc2]

theorem lookupK_updateK_self {α : Type} (l : List (String × α)) (k : String)
    (f : α → α) : lookupK (updateK l k f) k = (lookupK l k).map f := by
  induction l with
  | nil => rfl
  | cons p l ih =>
    rw [show updateK (p :: l) k f =
      (if p.1 == k then (p.1, f p.2) else p) :: updateK l k f from rfl]
    by_cases hc : p.1 = k
    · simp [lookupK_cons, hc]
    · simp [lookupK_cons, hc, ih]

/-- Success shape of `POST /promo/apply`: whenever the booking exists and is
owned by the caller and the coupon code resolves to an active coupon, the
request succeeds with the rounded discount, sets the booking promo fields
and increments the coupon counter — no other condition is consulted. -/
theorem applyPromo_ok (s : State) (u code bid : String) (b : Booking)
    (cid : String) (c : Coupon) (hcode : code ≠ "") (hbid : bid ≠ "")
    (hb : lookupK s.bookings bid = some b) (hu : b.userId = u)
    (hc : findCouponByCode s code = some (cid, c))
    (hact : c.isActive = true) :
    (applyPromo s u code bid).1 =
      .ok (round2 (calcDiscount c b.estimatedPrice),
           b.estimatedPrice - round2 (calcDiscount c b.estimatedPrice)) ∧
    (applyPromo s u code bid).2.coupons =
      updateK s.coupons cid (fun c => { c with usedCount := c.usedCount + 1 }) ∧
    (applyPromo s u code bid).2.bookings =
      updateK s.bookings bid (fun b0 =>
        { b0 with promoCode := some c.code
                  discountAmount := round2 (calcDiscount c b.estimatedPrice) }) := by
  have hg : ¬(code = "" ∨ bid = "") := by simp [hcode, hbid]
  simp only [applyPromo, if_neg hg, hb, hc, hu, hact]
  simp

/-- Error shape of `POST /promo/apply`: a missing or inactive coupon fails
with the generic message and leaves the state untouched. -/
theorem applyPromo_err (s : State) (u code bid : String) (b : Booking)
    (hcode : code ≠ "") (hbid : bid ≠ "")
    (hb : lookupK s.bookings bid = some b) (hu : b.userId = u)
    (hc : findCouponByCode s code = none ∨
          ∃ cid c, findCouponByCode s code = some (cid, c) ∧
            c.isActive = false) :
    applyPromo s u code bid = (.error "Invalid promo code", s) := by
  have hg : ¬(code = "" ∨ bid = "") := by simp [hcode, hbid]
  rcases hc with hnone | ⟨cid, c, hsome, hinact⟩
  · simp only [applyPromo, if_neg hg, hb, hu, hnone]
    simp
  · simp only [applyPromo, if_neg hg, hb, hu, hsome, hinact]
    simp

/-- `POST /promo/validate` rejects a coupon whose usage limit is reached. -/
theorem validatePromo_limit (s : State) (u code : String) (amt now : ℚ)
    (cid : String) (c : Coupon) (hcode : code ≠ "")
    (hc : findCouponByCode s code = some (cid, c)) (hact : c.isActive = true)
    (hexp : couponExpired c now = false) (hlim : c.usageLimit ≤ c.usedCount) :
    validatePromo s u code amt now =
      (.error "This promo code has reached its usage limit", s) := by
  simp only [validatePromo, if_neg hcode, hc, hact, hexp, if_pos hlim]
  simp

/-- C2 is false on the code: the coupon "SAVE10" of `couponAtLimitState` has
usedCount = usageLimit = 1, yet Apply succeeds and moves usedCount to 2. -/
theorem C2_counterexample :
    (lookupK couponAtLimitState.coupons "c1").map Coupon.usedCount = some 1 ∧
    (lookupK couponAtLimitState.coupons "c1").map Coupon.usageLimit = some 1 ∧
    (applyPromo couponAtLimitState "u1" "SAVE10" "b1").1.isOk = true ∧
    (lookupK (applyPromo couponAtLimitState "u1" "SAVE10" "b1").2.coupons
      "c1").map Coupon.usedCount = some 2 := by
  decide

/-- C2 (amended): Validate rejects a coupon whose usedCount has reached
usageLimit, but Apply does not re-check the limit: Apply on an active coupon
at its limit still increments usedCount, which thereby exceeds usageLimit. -/
theorem C2_apply_ignores_usage_limit (s : State) (u code bid : String)
    (b : Booking) (cid : String) (c : Coupon) (amt now : ℚ)
    (hcode : code ≠ "") (hbid : bid ≠ "")
    (hb : lookupK s.bookings bid = some b) (hu : b.userId = u)
    (hc : findCouponByCode s code = some (cid, c))
    (hck : lookupK s.coupons cid = some c) (hact : c.isActive = true)
    (hexp : couponExpired c now = false)
    (hlim : c.usageLimit ≤ c.usedCount) :
    validatePromo s u code amt now =
      (.error "This promo code has reached its usage limit", s) ∧
    (applyPromo s u code bid).1 =
      .ok (round2 (calcDiscount c b.estimatedPrice),
           b.estimatedPrice - round2 (calcDiscount c b.estimatedPrice)) ∧
    (lookupK (applyPromo s u code bid).2.coupons cid).map Coupon.usedCount =
      some (c.usedCount + 1) ∧
    c.usageLimit < c.usedCount + 1 := by
  obtain ⟨h1, h2, h3⟩ := applyPromo_ok s u code bid b cid c hcode hbid hb hu hc hact
  refine ⟨validatePromo_limit s u code amt now cid c hcode hc hact hexp hlim,
    h1, ?_, by omega⟩
  rw [h2, lookupK_updateK_self, hck]
  rfl

/-- Witness for C2 (amended) at `couponAtLimitState`. -/
theorem C2_witness :
    validatePromo couponAtLimitState "u1" "SAVE10" 100 0 =
      (.error "This promo code has reached its usage limit",
       couponAtLimitState) ∧
    (applyPromo couponAtLimitState "u1" "SAVE10" "b1").1 =
      .ok (round2 (calcDiscount couponAtLimit 100), 100 - round2 (calcDiscount couponAtLimit 100)) ∧
    (lookupK (applyPromo couponAtLimitState "u1" "SAVE10" "b1").2.coupons
      "c1").map Coupon.usedCount = some 2 ∧
    (1 : Nat) < 2 := by
  have h := C2_apply_ignores_usage_limit couponAtLimitState "u1" "SAVE10" "b1"
    bkPending "c1" couponAtLimit 100 0 (by decide) (by decide) (by decide)
    (by decide) (by decide) (by decide) (by decide) (by decide) (by decide)
  exact h

/-- C3 is false on the code: the coupon of `expiredCouponState` is expired
(Validate at time 1 rejects it), yet Apply succeeds and performs all three
mutations: booking promo fields, coupon counter, UserCoupon record. -/
theorem C3_counterexample :
    (validatePromo expiredCouponState "u1" "SAVE10" 100 1).1 =
      .error "This promo code has expired" ∧
    (applyPromo expiredCouponState "u1" "SAVE10" "b1").1.isOk = true ∧
    (lookupK (applyPromo expiredCouponState "u1" "SAVE10" "b1").2.coupons
      "c1").map Coupon.usedCount = some 1 ∧
    (lookupK (applyPromo expiredCouponState "u1" "SAVE10" "b1").2.bookings
      "b1").map Booking.promoCode = some (some "SAVE10") ∧
    (applyPromo expiredCouponState "u1" "SAVE10" "b1").2.userCoupons =
      [⟨"u1", "c1", some "b1", true⟩] := by
  decide

/-- C3 (amended): Apply re-validates only that the coupon exists and is
active — those failures return the generic invalid-code error with no
mutation — but Apply performs no expiry, usage-limit, minimum-order or
prior-redemption re-check: it succeeds on any active coupon the caller's
booking can name, even one Validate would reject. -/
theorem C3_apply_revalidates_only_existence_and_active (s : State)
    (u code bid : String) (b : Booking) (hcode : code ≠ "") (hbid : bid ≠ "")
    (hb : lookupK s.bookings bid = some b) (hu : b.userId = u) :
    (findCouponByCode s code = none →
      applyPromo s u code bid = (.error "Invalid promo code", s)) ∧
    (∀ cid c, findCouponByCode s code = some (cid, c) → c.isActive = false →
      applyPromo s u code bid = (.error "Invalid promo code", s)) ∧
    (∀ cid c, findCouponByCode s code = some (cid, c) → c.isActive = true →
      (applyPromo s u code bid).1.isOk = true) := by
  refine ⟨fun hnone => ?_, fun cid c hsome hinact => ?_,
    fun cid c hsome hact => ?_⟩
  · exact applyPromo_err s u code bid b hcode hbid hb hu (Or.inl hnone)
  · exact applyPromo_err s u code bid b hcode hbid hb hu
      (Or.inr ⟨cid, c, hsome, hinact⟩)
  · have h := (applyPromo_ok s u code bid b cid c hcode hbid hb hu hsome
      hact).1
    rw [h]
    rfl

/-- Witness for C3 (amended): the expired coupon of `expiredCouponState`
still passes Apply. -/
theorem C3_witness :
    (applyPromo expiredCouponState "u1" "SAVE10" "b1").1.isOk = true :=
  (C3_apply_revalidates_only_existence_and_active expiredCouponState "u1"
    "SAVE10" "b1" bkPending (by decide) (by decide) (by decide)
    rfl).2.2 "c1" couponExpiredEx (by decide) (by decide)

/-- Success shape of `POST /wallet/pay`: whenever the booking exists and is
owned by the caller and the caller's wallet covers
`estimatedPrice - discountAmount`, the wallet is debited by that amount and
the booking is marked WALLET / COMPLETED — the booking's previous
paymentStatus is never consulted. -/
theorem walletPay_ok (s : State) (u bid : String) (b : Booking) (w : Wallet)
    (hbid : bid ≠ "") (hb : lookupK s.bookings bid = some b)
    (hu : b.userId = u) (hw : lookupK s.wallets u = some w)
    (hbal : ¬ w.balance < b.estimatedPrice - b.discountAmount) :
    (walletPay s u bid).1 =
      .ok (w.balance - (b.estimatedPrice - b.discountAmount),
           b.estimatedPrice - b.discountAmount) ∧
    lookupK (walletPay s u bid).2.wallets u =
      some ⟨w.balance - (b.estimatedPrice - b.discountAmount),
            ⟨.PAYMENT, -(b.estimatedPrice - b.discountAmount), some bid⟩
              :: w.transactions⟩ ∧
    (lookupK (walletPay s u bid).2.bookings bid).map Booking.paymentStatus =
      some .COMPLETED := by
  simp only [walletPay, if_neg hbid, hb, hu, hw, if_neg hbal, ne_eq,
    not_true_eq_false, if_false, ite_false]
  refine ⟨by trivial, ?_, ?_⟩
  · rw [lookupK_updateK_self, hw]
    rfl
  · rw [lookupK_updateK_self, hb]
    rfl

/-- C4 is false on the code: the booking of `paidBookingState` already has
paymentStatus COMPLETED, yet a wallet-pay request for it succeeds and debits
the wallet again (balance 100 drops to 70). -/
theorem C4_counterexample :
    (lookupK paidBookingState.bookings "b1").map Booking.paymentStatus =
      some .COMPLETED ∧
    (walletPay paidBookingState "u1" "b1").1.isOk = true ∧
    (lookupK (walletPay paidBookingState "u1" "b1").2.wallets "u1").map
      Wallet.balance = some 70 := by
  obtain ⟨h1, h2, h3⟩ := walletPay_ok paidBookingState "u1" "b1" bkPaid wRich
    (by decide) (by decide) rfl (by decide) (by norm_num [wRich, bkPaid])
  refine ⟨by decide, by rw [h1]; rfl, ?_⟩
  rw [h2]
  norm_num [wRich, bkPaid]

/-- C4 (amended): a wallet-pay request debits the requester's wallet
whenever the booking exists, is owned by the caller, and the wallet covers
`estimatedPrice - discountAmount`; the booking's paymentStatus is not
consulted, so a second wallet-pay for a booking already COMPLETED debits the
wallet again rather than being refused. -/
theorem C4_walletPay_ignores_paymentStatus (s : State) (u bid : String)
    (b : Booking) (w : Wallet) (hbid : bid ≠ "")
    (hb : lookupK s.bookings bid = some b) (hu : b.userId = u)
    (hps : b.paymentStatus = .COMPLETED)
    (hw : lookupK s.wallets u = some w)
    (hbal : ¬ w.balance < b.estimatedPrice - b.discountAmount) :
    (walletPay s u bid).1 =
      .ok (w.balance - (b.estimatedPrice - b.discountAmount),
           b.estimatedPrice - b.discountAmount) ∧
    lookupK (walletPay s u bid).2.wallets u =
      some ⟨w.balance - (b.estimatedPrice - b.discountAmount),
            ⟨.PAYMENT, -(b.estimatedPrice - b.discountAmount), some bid⟩
              :: w.transactions⟩ :=
  ⟨(walletPay_ok s u bid b w hbid hb hu hw hbal).1,
   (walletPay_ok s u bid b w hbid hb hu hw hbal).2.1⟩

/-- Witness for C4 (amended) at `paidBookingState` (already COMPLETED). -/
theorem C4_witness :
    (walletPay paidBookingState "u1" "b1").1 =
      .ok (wRich.balance -
             (bkPaid.estimatedPrice - bkPaid.discountAmount),
           bkPaid.estimatedPrice - bkPaid.discountAmount) ∧
    lookupK (walletPay paidBookingState "u1" "b1").2.wallets "u1" =
      some ⟨wRich.balance - (bkPaid.estimatedPrice - bkPaid.discountAmount),
            ⟨.PAYMENT, -(bkPaid.estimatedPrice - bkPaid.discountAmount),
             some "b1"⟩ :: wRich.transactions⟩ :=
  C4_walletPay_ignores_paymentStatus paidBookingState "u1" "b1" bkPaid wRich
    (by decide) (by decide) rfl (by decide) (by decide)
    (by norm_num [wRich, bkPaid])

/-- C5 is false on the code: the booking of `deliveredBookingState` is
DELIVERED, yet UpdateStatus with the recognized value "PENDING" succeeds and
moves it back to PENDING. -/
theorem C5_counterexample :
    (lookupK deliveredBookingState.bookings "b1").map Booking.status =
      some .DELIVERED ∧
    (updateStatus deliveredBookingState "u1" "b1" "PENDING" none).1 =
      .ok () ∧
    (lookupK (updateStatus deliveredBookingState "u1" "b1" "PENDING"
      none).2.bookings "b1").map Booking.status = some .PENDING := by
  decide

/-- C5 (amended): VerifyDelivery and Cancel refuse to touch a DELIVERED or
CANCELLED booking and leave the state unchanged, but UpdateStatus performs
no terminal-state check: any recognized status value overwrites even a
terminal booking's status. -/
theorem C5_terminal_not_enforced_by_updateStatus (s : State)
    (u bid otp stStr : String) (st : BookingStatus) (eta : Option ℤ)
    (proof : Option String) (b : Booking)
    (hb : lookupK s.bookings bid = some b) (hu : b.userId = u)
    (hterm : b.status = .DELIVERED ∨ b.status = .CANCELLED)
    (hne : stStr ≠ "") (hst : parseStatus stStr = some st) :
    ((verifyDelivery s u bid otp proof).1.isOk = false ∧
     (verifyDelivery s u bid otp proof).2 = s) ∧
    ((cancelBooking s u bid).1.isOk = false ∧
     (cancelBooking s u bid).2 = s) ∧
    ((updateStatus s u bid stStr eta).1 = .ok () ∧
     (lookupK (updateStatus s u bid stStr eta).2.bookings bid).map
       Booking.status = some st) := by
  refine ⟨?_, ?_, ?_⟩
  · by_cases ho : otp = ""
    · simp [verifyDelivery, ho, Except.isOk, Except.toBool]
    · rcases hterm with ht | ht <;>
        simp [verifyDelivery, ho, hb, hu, ht, Except.isOk, Except.toBool]
  · rcases hterm with ht | ht <;>
      · rw [show cancelBooking s u bid =
          (.error ("Cannot cancel a " ++ statusLower b.status ++ " booking"),
            s) from ?_]
        · exact ⟨rfl, rfl⟩
        · simp [cancelBooking, hb, hu, ht]
  · have hmain : (updateStatus s u bid stStr eta).2.bookings =
        updateK s.bookings bid (fun b0 =>
          { b0 with status := st
                    eta := match eta with | some e => some e | none => b0.eta
                    paymentStatus :=
                      if st = .CANCELLED then .REFUNDED
                      else b0.paymentStatus }) := by
      simp [updateStatus, hne, hst, hb, hu]
    constructor
    · simp [updateStatus, hne, hst, hb, hu]
    · rw [hmain, lookupK_updateK_self, hb]
      rfl

/-- Witness for C5 (amended) at `deliveredBookingState` with "PENDING". -/
theorem C5_witness :
    ((verifyDelivery deliveredBookingState "u1" "b1" "1234" none).1.isOk =
       false ∧
     (verifyDelivery deliveredBookingState "u1" "b1" "1234" none).2 =
       deliveredBookingState) ∧
    ((cancelBooking deliveredBookingState "u1" "b1").1.isOk = false ∧
     (cancelBooking deliveredBookingState "u1" "b1").2 =
       deliveredBookingState) ∧
    ((updateStatus deliveredBookingState "u1" "b1" "PENDING" none).1 =
       .ok () ∧
     (lookupK (updateStatus deliveredBookingState "u1" "b1" "PENDING"
       none).2.bookings "b1").map Booking.status = some .PENDING) :=
  C5_terminal_not_enforced_by_updateStatus deliveredBookingState "u1" "b1"
    "1234" "PENDING" .PENDING none none bkDelivered (by decide) rfl
    (Or.inl rfl) (by decide) rfl

/-- C6: on a PENDING booking, VerifyDelivery with the booking's OTP succeeds
and sets the status to DELIVERED; repeating the call then fails with the
already-delivered conflict and leaves the state unchanged; a mismatched OTP
fails with the invalid-OTP error and changes nothing. -/
theorem C6_verifyDelivery_exactly_once (s : State) (u bid otp otp2 : String)
    (proof proof2 : Option String) (b : Booking)
    (hb : lookupK s.bookings bid = some b) (hu : b.userId = u)
    (hst : b.status = .PENDING) (hotp : b.otp = otp) (hne : otp ≠ "") :
    (verifyDelivery s u bid otp proof).1 = .ok () ∧
    (lookupK (verifyDelivery s u bid otp proof).2.bookings bid).map
      Booking.status = some .DELIVERED ∧
    verifyDelivery (verifyDelivery s u bid otp proof).2 u bid otp proof2 =
      (.error "Booking already delivered",
       (verifyDelivery s u bid otp proof).2) ∧
    (otp2 ≠ "" → otp2 ≠ otp →
      verifyDelivery s u bid otp2 proof = (.error "Invalid delivery OTP", s)) := by
  have hbody : (verifyDelivery s u bid otp proof).2.bookings =
      updateK s.bookings bid (fun b0 =>
        { b0 with status := .DELIVERED
                  deliveryProofUrl := proof
                  paymentStatus :=
                    if b0.paymentMethod = .CASH then .COMPLETED
                    else b0.paymentStatus }) := by
    simp [verifyDelivery, hne, hb, hu, hst, hotp]
  have hlook : (lookupK (verifyDelivery s u bid otp proof).2.bookings
      bid).map Booking.status = some .DELIVERED := by
    rw [hbody, lookupK_updateK_self, hb]
    rfl
  have hlook2 : lookupK (verifyDelivery s u bid otp proof).2.bookings bid =
      some { b with status := .DELIVERED
                    deliveryProofUrl := proof
                    paymentStatus :=
                      if b.paymentMethod = .CASH then .COMPLETED
                      else b.paymentStatus } := by
    rw [hbody, lookupK_updateK_self, hb]
    rfl
  refine ⟨?_, hlook, ?_, ?_⟩
  · simp [verifyDelivery, hne, hb, hu, hst, hotp]
  · set s2 := (verifyDelivery s u bid otp proof).2 with hs2
    simp [verifyDelivery, hne, hlook2, hu]
  · intro h2ne h2bad
    have : b.otp ≠ otp2 := by rw [hotp]; exact fun he => h2bad he.symm
    rcases b.status with _ | _ | _ | _ | _ | _ | _ | _ <;>
      simp_all [verifyDelivery, h2ne, hb, hu, hst, this]

/-- Witness for C6 at `pendingBookingState` with OTP "1234". -/
theorem C6_witness :
    (verifyDelivery pendingBookingState "u1" "b1" "1234" none).1 = .ok () ∧
    (lookupK (verifyDelivery pendingBookingState "u1" "b1" "1234"
      none).2.bookings "b1").map Booking.status = some .DELIVERED ∧
    verifyDelivery (verifyDelivery pendingBookingState "u1" "b1" "1234"
        none).2 "u1" "b1" "1234" none =
      (.error "Booking already delivered",
       (verifyDelivery pendingBookingState "u1" "b1" "1234" none).2) ∧
    verifyDelivery pendingBookingState "u1" "b1" "9999" none =
      (.error "Invalid delivery OTP", pendingBookingState) := by
  have h := C6_verifyDelivery_exactly_once pendingBookingState "u1" "b1"
    "1234" "9999" none none bkPending (by decide) rfl rfl rfl (by decide)
  exact ⟨h.1, h.2.1, h.2.2.1, h.2.2.2 (by decide) (by decide)⟩

/-- C7: cancelling a non-terminal, WALLET-paid, payment-COMPLETED booking
whose requester has a wallet sets the status to CANCELLED, credits the
wallet by exactly the paid amount (finalPrice when nonzero, otherwise
estimatedPrice) with one REFUND transaction, and sets paymentStatus to
REFUNDED; cancelling a DELIVERED or CANCELLED booking fails and changes
nothing. -/
theorem C7_cancel_refunds_wallet_paid (s : State) (u bid : String)
    (b : Booking) (w : Wallet)
    (hb : lookupK s.bookings bid = some b) (hu : b.userId = u) :
    (b.status ≠ .DELIVERED → b.status ≠ .CANCELLED →
     b.paymentMethod = .WALLET → b.paymentStatus = .COMPLETED →
     lookupK s.wallets u = some w →
      (cancelBooking s u bid).1 = .ok () ∧
      (lookupK (cancelBooking s u bid).2.bookings bid).map Booking.status =
        some .CANCELLED ∧
      (lookupK (cancelBooking s u bid).2.bookings bid).map
        Booking.paymentStatus = some .REFUNDED ∧
      lookupK (cancelBooking s u bid).2.wallets u =
        some ⟨w.balance +
                (if b.finalPrice = 0 then b.estimatedPrice else b.finalPrice),
              ⟨.REFUND,
               if b.finalPrice = 0 then b.estimatedPrice else b.finalPrice,
               some bid⟩ :: w.transactions⟩) ∧
    ((b.status = .DELIVERED ∨ b.status = .CANCELLED) →
      (cancelBooking s u bid).1.isOk = false ∧
      (cancelBooking s u bid).2 = s) := by
  constructor
  · intro h1 h2 h3 h4 hw
    have hmain : cancelBooking s u bid =
        (.ok (),
         { s with
             wallets := updateK s.wallets u (fun w =>
               { balance := w.balance +
                   (if b.finalPrice = 0 then b.estimatedPrice
                    else b.finalPrice)
                 transactions :=
                   ⟨.REFUND,
                    if b.finalPrice = 0 then b.estimatedPrice
                    else b.finalPrice,
                    some bid⟩ :: w.transactions })
             bookings := updateK
               (updateK s.bookings bid (fun b0 =>
                 { b0 with status := .CANCELLED })) bid (fun b0 =>
                 { b0 with paymentStatus := .REFUNDED }) }) := by
      simp [cancelBooking, hb, hu, h1, h2, h3, h4, hw]
    rw [hmain]
    refine ⟨rfl, ?_, ?_, ?_⟩
    · rw [show ({ s with
          wallets := updateK s.wallets u _
          bookings := updateK (updateK s.bookings bid _) bid _ } :
            State).bookings = updateK (updateK s.bookings bid _) bid _
        from rfl]
      rw [lookupK_updateK_self, lookupK_updateK_self, hb]
      rfl
    · rw [show ({ s with
          wallets := updateK s.wallets u _
          bookings := updateK (updateK s.bookings bid _) bid _ } :
            State).bookings = updateK (updateK s.bookings bid _) bid _
        from rfl]
      rw [lookupK_updateK_self, lookupK_updateK_self, hb]
      rfl
    · rw [show ({ s with
          wallets := updateK s.wallets u _
          bookings := updateK (updateK s.bookings bid _) bid _ } :
            State).wallets = updateK s.wallets u _ from rfl]
      rw [lookupK_updateK_self, hw]
      rfl
  · intro hterm
    rcases hterm with ht | ht <;>
      simp [cancelBooking, hb, hu, ht, Except.isOk, Except.toBool]

/-- Witness for C7 at `walletPaidState` (finalPrice 90, wallet balance 5). -/
theorem C7_witness :
    (cancelBooking walletPaidState "u1" "b1").1 = .ok () ∧
    (lookupK (cancelBooking walletPaidState "u1" "b1").2.bookings
      "b1").map Booking.status = some .CANCELLED ∧
    (lookupK (cancelBooking walletPaidState "u1" "b1").2.bookings
      "b1").map Booking.paymentStatus = some .REFUNDED ∧
    lookupK (cancelBooking walletPaidState "u1" "b1").2.wallets "u1" =
      some ⟨wSmall.balance +
              (if bkWalletPaid.finalPrice = 0 then bkWalletPaid.estimatedPrice
               else bkWalletPaid.finalPrice),
            ⟨.REFUND,
             if bkWalletPaid.finalPrice = 0 then bkWalletPaid.estimatedPrice
             else bkWalletPaid.finalPrice,
             some "b1"⟩ :: wSmall.transactions⟩ :=
  (C7_cancel_refunds_wallet_paid walletPaidState "u1" "b1" bkWalletPaid
    wSmall (by decide) rfl).1 (by decide) (by decide) rfl rfl (by decide)

/-- C10: cancelling a non-terminal WALLET-paid COMPLETED booking whose
requester has no Wallet row still sets the status to CANCELLED, but the
refund branch is silently skipped: no wallet rows change and paymentStatus
stays COMPLETED. -/
theorem C10_cancel_skips_refund_without_wallet (s : State) (u bid : String)
    (b : Booking) (hb : lookupK s.bookings bid = some b) (hu : b.userId = u)
    (h1 : b.status ≠ .DELIVERED) (h2 : b.status ≠ .CANCELLED)
    (hpm : b.paymentMethod = .WALLET) (hps : b.paymentStatus = .COMPLETED)
    (hw : lookupK s.wallets u = none) :
    (cancelBooking s u bid).1 = .ok () ∧
    (lookupK (cancelBooking s u bid).2.bookings bid).map Booking.status =
      some .CANCELLED ∧
    (lookupK (cancelBooking s u bid).2.bookings bid).map
      Booking.paymentStatus = some .COMPLETED ∧
    (cancelBooking s u bid).2.wallets = s.wallets := by
  have hmain : cancelBooking s u bid =
      (.ok (),
       { s with bookings := updateK s.bookings bid (fun b0 =>
           { b0 with status := .CANCELLED }) }) := by
    simp [cancelBooking, hb, hu, h1, h2, hpm, hps, hw]
  rw [hmain]
  refine ⟨rfl, ?_, ?_, rfl⟩
  · rw [show ({ s with bookings := updateK s.bookings bid _ } :
        State).bookings = updateK s.bookings bid _ from rfl]
    rw [lookupK_updateK_self, hb]
    rfl
  · rw [show ({ s with bookings := updateK s.bookings bid _ } :
        State).bookings = updateK s.bookings bid _ from rfl]
    rw [lookupK_updateK_self, hb]
    simp [hps]

/-- Witness for C10 at `noWalletState`. -/
theorem C10_witness :
    (cancelBooking noWalletState "u1" "b1").1 = .ok () ∧
    (lookupK (cancelBooking noWalletState "u1" "b1").2.bookings "b1").map
      Booking.status = some .CANCELLED ∧
    (lookupK (cancelBooking noWalletState "u1" "b1").2.bookings "b1").map
      Booking.paymentStatus = some .COMPLETED ∧
    (cancelBooking noWalletState "u1" "b1").2.wallets =
      noWalletState.wallets :=
  C10_cancel_skips_refund_without_wallet noWalletState "u1" "b1"
    bkWalletPaid (by decide) rfl (by decide) (by decide) rfl rfl rfl

/-- The rounded code-side discount equals the spec-side discount rule. -/
theorem round2_calcDiscount (c : Coupon) (amt : ℚ) :
    round2 (calcDiscount c amt) =
      specDiscount c.discountType c.discountValue c.maxDiscount amt := by
  rcases c with ⟨code, dt, v, md, mo, ul, uc, ia, ex⟩
  cases dt <;> cases md <;> rfl

/-- Success shape of `POST /promo/validate`: with every guard passing, the
response is the rounded computed discount and the state is untouched. -/
theorem validatePromo_ok (s : State) (u code : String) (amt now : ℚ)
    (cid : String) (c : Coupon) (hcode : code ≠ "")
    (hc : findCouponByCode s code = some (cid, c)) (hact : c.isActive = true)
    (hexp : couponExpired c now = false)
    (hlim : ¬ c.usageLimit ≤ c.usedCount)
    (hmin : ¬(amt ≠ 0 ∧ amt < c.minOrderValue))
    (hredeem : ∀ uc, s.userCoupons.find?
        (fun uc => uc.userId == u && uc.couponId == cid) = some uc →
        uc.usedAt = false) :
    validatePromo s u code amt now =
      (.ok (round2 (calcDiscount c amt)), s) := by
  cases hf : s.userCoupons.find?
      (fun uc => uc.userId == u && uc.couponId == cid) with
  | none => simp [validatePromo, hcode, hc, hact, hexp, hlim, hmin, hf]
  | some uc =>
    simp [validatePromo, hcode, hc, hact, hexp, hlim, hmin, hf,
      hredeem uc hf]

/-- C8 is false on the code as literally stated: the coupon of
`zeroCapState` has maxDiscount set (to 0), yet the computed discount 10 is
not clamped to it, because the JS truthiness test skips a zero cap. -/
theorem C8_counterexample :
    (lookupK zeroCapState.coupons "c1").map Coupon.maxDiscount =
      some (some 0) ∧
    (validatePromo zeroCapState "u1" "CAP0" 100 0).1 = .ok 10 ∧
    ¬ (10 : ℚ) ≤ 0 := by
  refine ⟨by decide, ?_, by norm_num⟩
  rw [validatePromo_ok zeroCapState "u1" "CAP0" 100 0 "c1" cap0Coupon
    (by decide) (by decide) rfl rfl (by decide) (by norm_num [cap0Coupon])
    (fun uc h => Option.noConfusion h)]
  show Except.ok (round2 (calcDiscount cap0Coupon 100)) = Except.ok 10
  norm_num [calcDiscount, cap0Coupon, round2, jsRound]

/-- C8 (amended): Validate and Apply compute the discount as
orderAmount * value / 100 for a PERCENTAGE coupon, clamped to maxDiscount
only when the cap is set and nonzero (a zero cap is JS-falsy and skipped),
and as the value verbatim for a FLAT coupon, rounded half-up to 2 decimals;
for estimatedPrice 100 with PERCENTAGE-10 and no cap, Apply yields
discount 10.00 and finalPrice 90.00. -/
theorem C8_discount_formula (s : State) (u code bid : String) (amt now : ℚ)
    (cid : String) (c : Coupon) (b : Booking)
    (hcode : code ≠ "") (hbid : bid ≠ "")
    (hb : lookupK s.bookings bid = some b) (hu : b.userId = u)
    (hc : findCouponByCode s code = some (cid, c)) (hact : c.isActive = true)
    (hexp : couponExpired c now = false)
    (hlim : ¬ c.usageLimit ≤ c.usedCount)
    (hmin : ¬(amt ≠ 0 ∧ amt < c.minOrderValue))
    (hredeem : ∀ uc, s.userCoupons.find?
        (fun uc => uc.userId == u && uc.couponId == cid) = some uc →
        uc.usedAt = false) :
    (validatePromo s u code amt now).1 =
      .ok (specDiscount c.discountType c.discountValue c.maxDiscount amt) ∧
    (applyPromo s u code bid).1 =
      .ok (specDiscount c.discountType c.discountValue c.maxDiscount
             b.estimatedPrice,
           b.estimatedPrice -
             specDiscount c.discountType c.discountValue c.maxDiscount
               b.estimatedPrice) := by
  constructor
  · rw [validatePromo_ok s u code amt now cid c hcode hc hact hexp hlim hmin
      hredeem]
    show Except.ok (round2 (calcDiscount c amt)) = _
    rw [round2_calcDiscount]
  · rw [(applyPromo_ok s u code bid b cid c hcode hbid hb hu hc hact).1,
      round2_calcDiscount]

/-- Witness for C8: the spec example.  Validate on orderAmount 100 returns
10; Apply on the estimatedPrice-100 booking returns (10, 90). -/
theorem C8_witness :
    (validatePromo promoExampleState "u1" "SAVE10" 100 0).1 = .ok 10 ∧
    (applyPromo promoExampleState "u1" "SAVE10" "b1").1 = .ok (10, 90) := by
  have h := C8_discount_formula promoExampleState "u1" "SAVE10" "b1" 100 0
    "c1" saveTenCoupon bkPending (by decide) (by decide) (by decide) rfl
    (by decide) rfl rfl (by decide) (by norm_num [saveTenCoupon])
    (fun uc hf => Option.noConfusion hf)
  have hval : specDiscount saveTenCoupon.discountType
      saveTenCoupon.discountValue saveTenCoupon.maxDiscount (100 : ℚ) = 10 := by
    norm_num [specDiscount, saveTenCoupon, round2, jsRound]
  have hval2 : specDiscount saveTenCoupon.discountType
      saveTenCoupon.discountValue saveTenCoupon.maxDiscount
      bkPending.estimatedPrice = 10 := by
    norm_num [specDiscount, saveTenCoupon, bkPending, round2, jsRound]
  constructor
  · rw [h.1, hval]
  · rw [h.2, hval2]
    norm_num [bkPending]

theorem lookupK_mem {α : Type} (l : List (String × α)) (k : String) (v : α)
    (h : lookupK l k = some v) : (k, v) ∈ l := by
  unfold lookupK at h
  cases hf : l.find? (fun p => p.1 == k) with
  | none => rw [hf] at h; cases h
  | some p =>
    rw [hf] at h
    have hmem := List.mem_of_find?_eq_some hf
    have hpred := List.find?_some hf
    obtain ⟨p1, p2⟩ := p
    have hpk : p1 = k := by simpa using hpred
    have h2 : some p2 = some v := h
    cases h2
    rw [← hpk]
    exact hmem

/-- C9: SubmitRating on a DELIVERED booking with an assigned driver stores
the rating on the order, includes it among the driver's non-null order
ratings, and stores on the driver the arithmetic mean of those ratings
rounded to 1 decimal place. -/
theorem C9_driver_rating_is_rounded_mean (s : State) (u bid d : String)
    (r tip : ℚ) (b : Booking) (dr : Driver)
    (hb : lookupK s.bookings bid = some b) (hu : b.userId = u)
    (hst : b.status = .DELIVERED) (hd : b.driverId = some d)
    (hdr : lookupK s.drivers d = some dr) (hr1 : 1 ≤ r) (hr5 : r ≤ 5) :
    (submitRating s u bid r tip).1 = .ok () ∧
    lookupK (submitRating s u bid r tip).2.orders bid =
      some ⟨some r, tip⟩ ∧
    r ∈ ratingsForDriver (submitRating s u bid r tip).2 d ∧
    (lookupK (submitRating s u bid r tip).2.drivers d).map Driver.rating =
      some (round1
        ((ratingsForDriver (submitRating s u bid r tip).2 d).sum /
         ((ratingsForDriver (submitRating s u bid r tip).2 d).length : ℚ))) := by
  have hguard : ¬(r < 1 ∨ 5 < r) := by
    push_neg
    exact ⟨hr1, hr5⟩
  have hg2 : ¬ b.userId ≠ u := by simp [hu]
  have hg3 : ¬ b.status ≠ .DELIVERED := by simp [hst]
  have hmain : (submitRating s u bid r tip).1 = .ok () ∧
      (submitRating s u bid r tip).2.bookings = s.bookings ∧
      lookupK (submitRating s u bid r tip).2.orders bid =
        some ⟨some r, tip⟩ ∧
      (lookupK (submitRating s u bid r tip).2.drivers d).map Driver.rating =
        some (round1
          ((ratingsForDriver (submitRating s u bid r tip).2 d).sum /
           ((ratingsForDriver (submitRating s u bid r tip).2 d).length : ℚ))) := by
    simp only [submitRating, if_neg hguard, hb, if_neg hg2, if_neg hg3, hd]
    cases horders : lookupK s.orders bid with
    | none =>
      simp only [horders]
      by_cases htp : 0 < tip
      · simp only [if_pos htp]
        cases hwq : lookupK s.wallets u with
        | none =>
          simp only [hwq]
          refine ⟨by trivial, by trivial, ?_, ?_⟩
          · rw [lookupK_cons]; simp
          · rw [lookupK_updateK_self, hdr]; rfl
        | some w =>
          simp only [hwq]
          by_cases hbal : w.balance < tip
          · simp only [if_pos hbal]
            refine ⟨by trivial, by trivial, ?_, ?_⟩
            · rw [lookupK_cons]; simp
            · rw [lookupK_updateK_self, hdr]; rfl
          · simp only [if_neg hbal]
            refine ⟨by trivial, by trivial, ?_, ?_⟩
            · rw [lookupK_cons]; simp
            · rw [lookupK_updateK_self, hdr]; rfl
      · simp only [if_neg htp]
        refine ⟨by trivial, by trivial, ?_, ?_⟩
        · rw [lookupK_cons]; simp
        · rw [lookupK_updateK_self, hdr]; rfl
    | some o0 =>
      simp only [horders]
      by_cases htp : 0 < tip
      · simp only [if_pos htp]
        cases hwq : lookupK s.wallets u with
        | none =>
          simp only [hwq]
          refine ⟨by trivial, by trivial, ?_, ?_⟩
          · rw [lookupK_updateK_self, horders]; rfl
          · rw [lookupK_updateK_self, hdr]; rfl
        | some w =>
          simp only [hwq]
          by_cases hbal : w.balance < tip
          · simp only [if_pos hbal]
            refine ⟨by trivial, by trivial, ?_, ?_⟩
            · rw [lookupK_updateK_self, horders]; rfl
            · rw [lookupK_updateK_self, hdr]; rfl
          · simp only [if_neg hbal]
            refine ⟨by trivial, by trivial, ?_, ?_⟩
            · rw [lookupK_updateK_self, horders]; rfl
            · rw [lookupK_updateK_self, hdr]; rfl
      · simp only [if_neg htp]
        refine ⟨by trivial, by trivial, ?_, ?_⟩
        · rw [lookupK_updateK_self, horders]; rfl
        · rw [lookupK_updateK_self, hdr]; rfl
  obtain ⟨h1, h2, h3, h4⟩ := hmain
  refine ⟨h1, h3, ?_, h4⟩
  have hmem := lookupK_mem _ _ _ h3
  unfold ratingsForDriver
  apply List.mem_filterMap.mpr
  refine ⟨(bid, ⟨some r, tip⟩), hmem, ?_⟩
  rw [h2, hb]
  simp [hd]

/-- Witness for C9: driver with prior ratings 4 and 5; submitting 3 stores
round1((3+4+5)/3) = 4.0. -/
theorem C9_witness :
    (submitRating ratedDriverState "u1" "b3" 3 0).1 = .ok () ∧
    (lookupK (submitRating ratedDriverState "u1" "b3" 3 0).2.drivers
      "d1").map Driver.rating = some 4 := by
  have h := C9_driver_rating_is_rounded_mean ratedDriverState "u1" "b3" "d1"
    3 0 bkDriver ⟨0, 0⟩ (by decide) rfl rfl rfl (by decide) (by norm_num)
    (by norm_num)
  refine ⟨h.1, ?_⟩
  have hrs : ratingsForDriver (submitRating ratedDriverState "u1" "b3" 3
      0).2 "d1" = [3, 4, 5] := by decide
  rw [h.2.2.2, hrs]
  norm_num [round1, jsRound]

end Carryon

